import Mathlib

/-!
Verification of the goproxy round-trip orchestrator.

Shallow embedding of the per-request forwarding round-trip:
`ProxyCtx.RoundTrip` (src/unnamed/part_000, lines 152-430), the
instrumented connection `proxyTCPConn` (src/proxy_conn.go), the metric
helpers `SetErrorMetric` / `SetSuccessMetric`, and the close-coupling
wrapper `connCloser`.

Effectful collaborators (the dialer, the resolver chain, the keepalive
configurator, the wire, the two worker goroutines' outcomes) are
represented by an explicit per-attempt environment `AttemptEnv`; the
orchestrator is the pure function `attempt` (one dial attempt) and
`roundTrip` (the recursion through the single-use fallback).  Go strings
are Lean `String`s; `int64` counters are `Int` (overflow is not at issue
for the stated properties); `time.Duration` values are carried in whole
seconds; a Go `error` is `Option String` (the error text), `none` being
`nil`.
-/

/-- Go `strings.Contains` on the character lists of the two strings:
`sub` occurs inside `s`. -/
def listContainsSub (sub : List Char) : List Char → Bool
  | [] => sub.isPrefixOf []
  | c :: t => sub.isPrefixOf (c :: t) || listContainsSub sub t

/-- Go `strings.Contains s sub`. -/
def goContains (s sub : String) : Bool :=
  listContainsSub sub.data s.data

/-- Go `strings.HasPrefix s pre`. -/
def goStartsWith (s pre : String) : Bool :=
  pre.data.isPrefixOf s.data

/-- The state of a raw `net.Conn` as far as closing is concerned.
`closeEffects` counts the times an actual close of the underlying socket
happened; Go's `net.Conn.Close` on an already-closed connection is a
no-op that returns an error. -/
structure NetConn where
  closed : Bool
  closeEffects : Nat
deriving Repr, DecidableEq

/-- Go stdlib `net.Conn.Close`: closes once; a second call returns an
error without further effect. -/
def NetConn.Close (c : NetConn) : NetConn × Option String :=
  if c.closed then (c, some "use of closed network connection")
  else ({ closed := true, closeEffects := c.closeEffects + 1 }, none)

/-- The response body handed out by `http.ReadResponse` (an
`io.ReadCloser`); its `Close` is effect-free for our purposes beyond
marking it closed. -/
structure BodyCloser where
  closed : Bool
deriving Repr, DecidableEq

/-- Close of the wrapped response body. -/
def BodyCloser.Close (_b : BodyCloser) : BodyCloser × Option String :=
  ({ closed := true }, none)

/-- src/proxy_conn.go `connCloser`: a wrapper containing an
`io.ReadCloser` and a `net.Conn`. -/
structure ConnCloser where
  ReadCloser : BodyCloser
  Conn : NetConn
deriving Repr, DecidableEq

/-- src/proxy_conn.go lines 62-66 (`connCloser.Close`): closes the
connection, then closes (and returns the error of) the `io.ReadCloser`. -/
def ConnCloser.Close (cc : ConnCloser) : ConnCloser × Option String :=
  let c := cc.Conn.Close
  let b := cc.ReadCloser.Close
  ({ ReadCloser := b.1, Conn := c.1 }, b.2)

/-- Iterated `connCloser.Close`, discarding the returned errors. -/
def closeIter : Nat → ConnCloser → ConnCloser
  | 0, cc => cc
  | k + 1, cc => closeIter k (cc.Close).1

/-- src/proxy_conn.go `proxyTCPConn`: the instrumented connection.
Byte counters and per-operation timeouts are as in the source; the
deadline registers model `SetWriteDeadline` / `SetReadDeadline` on the
underlying connection, `0` standing for Go's zero `time.Time` (no
deadline).  The field `IgnoreDeadlineErrors` is read and written by
`RoundTrip` (src/unnamed/part_000 lines 330 and 351); the
`proxy_conn.go` revision under src/ predates it, so following spec
paragraph 4.1 it is carried as plain state with no effect on
`Write`/`Read`. -/
structure ProxyTCPConn where
  BytesWrote : Int
  BytesRead : Int
  ReadTimeout : Int
  WriteTimeout : Int
  IgnoreDeadlineErrors : Bool
  readDeadline : Int
  writeDeadline : Int
deriving Repr, DecidableEq

/-- src/proxy_conn.go lines 91-93 (`newProxyTCPConn`): all counters,
timeouts and deadlines start at their zero values. -/
def newProxyTCPConn : ProxyTCPConn :=
  { BytesWrote := 0, BytesRead := 0, ReadTimeout := 0, WriteTimeout := 0,
    IgnoreDeadlineErrors := false, readDeadline := 0, writeDeadline := 0 }

/-- src/proxy_conn.go lines 96-98: before a write, if a positive write
timeout is configured, arm the write deadline at `now + WriteTimeout`. -/
def ProxyTCPConn.armWrite (conn : ProxyTCPConn) (now : Int) : ProxyTCPConn :=
  if conn.WriteTimeout > 0 then { conn with writeDeadline := now + conn.WriteTimeout }
  else conn

/-- src/proxy_conn.go lines 109-111: the symmetric arming for reads. -/
def ProxyTCPConn.armRead (conn : ProxyTCPConn) (now : Int) : ProxyTCPConn :=
  if conn.ReadTimeout > 0 then { conn with readDeadline := now + conn.ReadTimeout }
  else conn

/-- src/proxy_conn.go lines 95-106 (`proxyTCPConn.Write`): arm the
deadline, delegate to the underlying connection (whose outcome `n`,
`err` the environment supplies), and on success add `n` to `BytesWrote`
and disarm the deadline; on error return with the counter untouched. -/
def ProxyTCPConn.Write (conn : ProxyTCPConn) (now : Int) (n : Nat)
    (err : Option String) : ProxyTCPConn × Nat × Option String :=
  let conn1 := conn.armWrite now
  match err with
  | some e => (conn1, n, some e)
  | none => ({ conn1 with BytesWrote := conn1.BytesWrote + n, writeDeadline := 0 }, n, none)

/-- src/proxy_conn.go lines 108-119 (`proxyTCPConn.Read`), symmetric to
`Write`. -/
def ProxyTCPConn.Read (conn : ProxyTCPConn) (now : Int) (n : Nat)
    (err : Option String) : ProxyTCPConn × Nat × Option String :=
  let conn1 := conn.armRead now
  match err with
  | some e => (conn1, n, some e)
  | none => ({ conn1 with BytesRead := conn1.BytesRead + n, readDeadline := 0 }, n, none)

/-- One operation on the instrumented connection, with the underlying
connection's outcome. -/
inductive ConnOp where
  | write (now : Int) (n : Nat) (err : Option String)
  | read (now : Int) (n : Nat) (err : Option String)
deriving Repr, DecidableEq

/-- Apply one operation to the connection state. -/
def applyOp (c : ProxyTCPConn) : ConnOp → ProxyTCPConn
  | .write now n err => (c.Write now n err).1
  | .read now n err => (c.Read now n err).1

/-- Apply a sequence of operations. -/
def applyOps (c : ProxyTCPConn) (ops : List ConnOp) : ProxyTCPConn :=
  ops.foldl applyOp c

/-- Total of a list of byte counts, as an `Int`. -/
def totalBytes : List Nat → Int
  | [] => 0
  | n :: t => (n : Int) + totalBytes t

/-- The successful writes the writer worker performs on the wire. -/
def applyWrites (c : ProxyTCPConn) (ns : List Nat) : ProxyTCPConn :=
  ns.foldl (fun c n => (c.Write 0 n none).1) c

/-- The successful reads the reader worker performs on the wire. -/
def applyReads (c : ProxyTCPConn) (ns : List Nat) : ProxyTCPConn :=
  ns.foldl (fun c n => (c.Read 0 n none).1) c

/-- Go `http.Header.Get`: the first value for the key, or `""`. -/
def headerGet : List (String × String) → String → String
  | [], _ => ""
  | (k', v') :: t, k => if k' = k then v' else headerGet t k

/-- Go `http.Header.Set` (and the direct map assignment
`req.Header[h] = []string{v}` of src/unnamed/part_000 line 240):
replace the entry for the key, or add it. -/
def headerSet : List (String × String) → String → String → List (String × String)
  | [], k, v => [(k, v)]
  | (k', v') :: t, k, v => if k' = k then (k, v) :: t else (k', v') :: headerSet t k v

/-- The slice of `http.Request` the orchestrator touches: the URL (as
its string form), the `RequestURI` field, and the header map. -/
structure Request where
  URL : String
  RequestURI : String
  Header : List (String × String)
deriving Repr, DecidableEq

/-- The slice of `http.Response` the orchestrator produces: the body
after the close-coupling wrap of src/unnamed/part_000 line 399. -/
structure Response where
  body : ConnCloser
deriving Repr, DecidableEq

/-- The slice of `ProxyCtx` (src/unnamed/part_000 lines 27-97) the
verified claims touch.  The single-use fallback callback
`ForwardProxyErrorFallback : func() (string, string)` is carried as the
pair it would return (`none` = the `nil` callback).  The Prometheus
`Requests` counter is carried as the list of `(target, outcome)` label
pairs it has received (`metricsRequestsPresent` = the counter is not
`nil`), and the bandwidth counter as a running total. -/
structure ProxyCtx where
  ForwardProxy : String
  ForwardProxyAuth : String
  ForwardProxyRegWrite : Bool
  ForwardProxyErrorFallback : Option (String × String)
  ForwardProxyErrorFallbackAuth : Bool
  ForwardProxyHeaders : List (String × String)
  Accounting : String
  DNSResolver : String
  BackupDNSResolver : String
  TCPKeepAlivePeriod : Int
  TCPKeepAliveCount : Int
  TCPKeepAliveInterval : Int
  ProxyReadDeadline : Int
  ProxyWriteDeadline : Int
  BytesSent : Int
  BytesReceived : Int
  metricsRequestsPresent : Bool
  requestsMetricEvents : List (String × String)
  metricsBandwidthPresent : Bool
  bandwidthTotal : Int
deriving Repr, DecidableEq

/-- src/unnamed/part_000 lines 127-132 (and identically 141-146): the
target label, `"local"` when the forward-proxy address has the string
prefix `"127.0.0.1"`, else `"spoof"`. -/
def targetLabel (fp : String) : String :=
  if goStartsWith fp "127.0.0.1" then "local" else "spoof"

/-- src/unnamed/part_000 lines 124-136 (`ProxyCtx.SetErrorMetric`):
when a forward proxy is configured and the `Requests` counter is not
`nil`, record an increment labelled `(target, "err")`. -/
def ProxyCtx.SetErrorMetric (ctx : ProxyCtx) : ProxyCtx :=
  if ctx.ForwardProxy ≠ "" ∧ ctx.metricsRequestsPresent then
    { ctx with requestsMetricEvents :=
        ctx.requestsMetricEvents ++ [(targetLabel ctx.ForwardProxy, "err")] }
  else ctx

/-- src/unnamed/part_000 lines 138-150 (`ProxyCtx.SetSuccessMetric`):
the same with outcome label `"ok"`. -/
def ProxyCtx.SetSuccessMetric (ctx : ProxyCtx) : ProxyCtx :=
  if ctx.ForwardProxy ≠ "" ∧ ctx.metricsRequestsPresent then
    { ctx with requestsMetricEvents :=
        ctx.requestsMetricEvents ++ [(targetLabel ctx.ForwardProxy, "ok")] }
  else ctx

/-- Number of error increments the `Requests` counter received. -/
def errCount (ctx : ProxyCtx) : Nat :=
  (ctx.requestsMetricEvents.filter (fun p => p.2 = "err")).length

/-- Number of success increments the `Requests` counter received. -/
def okCount (ctx : ProxyCtx) : Nat :=
  (ctx.requestsMetricEvents.filter (fun p => p.2 = "ok")).length

/-- Result of one `resolveDomain` call: the IPv4 set, the IPv6 set and
the error. -/
structure ResolveRes where
  c4 : List String
  c6 : List String
  err : Option String
deriving Repr, DecidableEq

/-- The outcomes of the effectful collaborators for one dial attempt:
the dialer's error (`none` = the dial succeeded), the two resolver
calls' results, the keepalive configurator's error, the sizes of the
successful wire writes the writer worker performed together with the
writer's completion error, and the sizes of the successful wire reads
split at the moment the orchestrator receives the writer's completion
signal, together with the reader's completion error. -/
structure AttemptEnv where
  dialErr : Option String
  primaryResolve : ResolveRes
  backupResolve : ResolveRes
  kaErr : Option String
  wireWrites : List Nat
  writeErr : Option String
  readsBeforeWriteDone : List Nat
  readsAfterWriteDone : List Nat
  readErr : Option String
deriving Repr, DecidableEq

/-- src/unnamed/part_000 lines 267-270: resolve via the primary
resolver; if that errors and a backup resolver is configured, the
backup's result replaces it. -/
def resolveChain (ctx : ProxyCtx) (env : AttemptEnv) : ResolveRes :=
  let r := env.primaryResolve
  if r.err ≠ none ∧ ctx.BackupDNSResolver ≠ "" then env.backupResolve else r

/-- The wire form the writer worker serializes the request in:
`req.WriteProxy` (proxy-relay form, keeps the request-URI) or
`req.Write` (standard form). -/
inductive WireForm where
  | proxyRelay
  | standard
deriving Repr, DecidableEq

/-- src/unnamed/part_000 lines 376-380: proxy-relay form whenever a
forward proxy is configured and `ForwardProxyRegWrite` is false. -/
def writeFormOf (ctx : ProxyCtx) : WireForm :=
  if ctx.ForwardProxy ≠ "" ∧ ctx.ForwardProxyRegWrite = false then .proxyRelay
  else .standard

/-- src/unnamed/part_000 line 324: `req.RequestURI = req.URL.String()`. -/
def prepareReq (req : Request) : Request :=
  { req with RequestURI := req.URL }

/-- src/unnamed/part_000 lines 370-372: ensure a `User-Agent` header is
present (an empty value, not an absent header). -/
def ensureUserAgent (h : List (String × String)) : List (String × String) :=
  if headerGet h "User-Agent" = "" then headerSet h "User-Agent" "" else h

/-- src/unnamed/part_000 lines 231-243: the header hook the forward
dialer applies to the connect/relay request.  Modelled from the spec:
`NewConnectDialWithKeepAlives` itself is not under src/, and spec
paragraph 4.4 says the hook is applied before the CONNECT/relay dial
completes; the hook's body is the closure of lines 232-242: set
`Proxy-Authorization: Basic <auth>` when auth is configured, then set
each configured forward-proxy header verbatim. -/
def applyConnectHeaders (ctx : ProxyCtx) (h : List (String × String)) :
    List (String × String) :=
  let h1 := if ctx.ForwardProxyAuth ≠ ""
            then headerSet h "Proxy-Authorization" ("Basic " ++ ctx.ForwardProxyAuth)
            else h
  ctx.ForwardProxyHeaders.foldl (fun acc p => headerSet acc p.1 p.2) h1

/-- Observable steps of one attempt for the stated properties: the
attempt of keepalive configuration, the serialization of the request
(with the wire form and the request-URI used), and the receipt of the
two completion signals. -/
inductive Event where
  | kaAttempt
  | wrote (form : WireForm) (requestURI : String)
  | recvWriteDone
  | recvReadDone
deriving Repr, DecidableEq

/-- The outcome of one dial attempt: either a recursion into a fallback
retry with the mutated context, or a final `(response, error)` pair (Go
returns both slots, and the shadowing slip of line 289 can make both
`nil`), with the final context, the instrumented connection's last state
(`none` when the attempt never created one) and the event trace. -/
inductive AttemptResult where
  | retry (ctx : ProxyCtx)
  | final (resp : Option Response) (err : Option String) (ctx : ProxyCtx)
      (conn : Option ProxyTCPConn) (trace : List Event)
deriving Repr, DecidableEq

/-- The response slot of a result. -/
def AttemptResult.respOf : AttemptResult → Option Response
  | .retry _ => none
  | .final r _ _ _ _ => r

/-- The error slot of a result. -/
def AttemptResult.errOf : AttemptResult → Option String
  | .retry _ => none
  | .final _ e _ _ _ => e

/-- The context a result carries. -/
def AttemptResult.ctxOf : AttemptResult → ProxyCtx
  | .retry c => c
  | .final _ _ c _ _ => c

/-- The instrumented connection's final state. -/
def AttemptResult.connOf : AttemptResult → Option ProxyTCPConn
  | .retry _ => none
  | .final _ _ _ c _ => c

/-- The event trace of a result. -/
def AttemptResult.traceOf : AttemptResult → List Event
  | .retry _ => []
  | .final _ _ _ _ t => t

/-- Whether the result is a fallback retry. -/
def AttemptResult.isRetry : AttemptResult → Bool
  | .retry _ => true
  | .final _ _ _ _ _ => false

/-- The body wrapped for the successful response: the fresh response
body coupled to the (open) dialed connection, src/unnamed/part_000 line
399 (`resp.Body = &connCloser{resp.Body, conn.Conn}`). -/
def successBody : ConnCloser :=
  { ReadCloser := { closed := false }, Conn := { closed := false, closeEffects := 0 } }

/-- src/unnamed/part_000 lines 326-353: wrap the raw connection with 5s
read/write timeouts and `IgnoreDeadlineErrors` set; when `setTargetKA`
(direct mode) attempt the keepalive configuration (tunables defaulting
to period 5, count 3, interval 3, each overridable — the configurator's
outcome is `kaErr`), and on its failure replace the timeouts with the
caller's proxy read/write deadlines and clear `IgnoreDeadlineErrors`. -/
def tunedConn (ctx : ProxyCtx) (setTargetKA : Bool) (kaErr : Option String) :
    ProxyTCPConn × List Event :=
  let conn0 : ProxyTCPConn :=
    { newProxyTCPConn with ReadTimeout := 5, WriteTimeout := 5, IgnoreDeadlineErrors := true }
  if setTargetKA then
    match kaErr with
    | some _ =>
      ({ conn0 with ReadTimeout := ctx.ProxyReadDeadline,
                    WriteTimeout := ctx.ProxyWriteDeadline,
                    IgnoreDeadlineErrors := false }, [.kaAttempt])
    | none => (conn0, [.kaAttempt])
  else (conn0, [])

/-- src/unnamed/part_000 lines 324-429: the exchange over a successfully
dialed connection.  `setTargetKA` is the flag of lines 209 and 300 (true
exactly in direct mode).  In order: mutate the request-URI (line 324);
wrap and tune the connection (lines 326-353, `tunedConn`); run the writer worker
(lines 367-389: ensure `User-Agent`, serialize in the form of lines
376-380, the wire writes and the completion error coming from the
environment) and the reader worker (lines 392-402); receive the writer's
signal first (line 404) — on write error classify and return without
touching the byte counters or waiting on the reader; otherwise record
`BytesSent`/`BytesReceived` from the live counters (lines 412-413), then
receive the reader's signal (line 415) — on read error classify and
return; on success record the success metric and the bandwidth total and
return the response with the close-coupled body (lines 424-429). -/
def exchange (ctx : ProxyCtx) (req : Request) (env : AttemptEnv)
    (setTargetKA : Bool) : AttemptResult :=
  let req1 := prepareReq req
  let tuned : ProxyTCPConn × List Event := tunedConn ctx setTargetKA env.kaErr
  let req2 := { req1 with Header := ensureUserAgent req1.Header }
  let connW := applyWrites tuned.1 env.wireWrites
  let connRB := applyReads connW env.readsBeforeWriteDone
  let trace1 := tuned.2 ++ [.wrote (writeFormOf ctx) req2.RequestURI, .recvWriteDone]
  match env.writeErr with
  | some e =>
    let ctx1 := if goContains e "timeout" = false then ctx.SetErrorMetric else ctx
    .final none (some e) ctx1 (some connRB) trace1
  | none =>
    let ctx1 := { ctx with BytesSent := connRB.BytesWrote, BytesReceived := connRB.BytesRead }
    let connRA := applyReads connRB env.readsAfterWriteDone
    let trace2 := trace1 ++ [.recvReadDone]
    match env.readErr with
    | some e =>
      let ctx2 := if goContains e "timeout" = false then ctx1.SetErrorMetric else ctx1
      .final none (some e) ctx2 (some connRA) trace2
    | none =>
      let ctx2 := ctx1.SetSuccessMetric
      let ctx3 := if ctx2.metricsBandwidthPresent then
          { ctx2 with bandwidthTotal := ctx2.bandwidthTotal + connRA.BytesWrote + connRA.BytesRead }
        else ctx2
      .final (some { body := successBody }) none ctx3 (some connRA) trace2

/-- src/unnamed/part_000 lines 267-274: after a forward-mode dial
failure, run the post-mortem resolver chain and record the error metric
exactly when both address families came back non-empty. -/
def dialFailCtx (ctx : ProxyCtx) (env : AttemptEnv) : ProxyCtx :=
  if (resolveChain ctx env).c4 ≠ [] ∧ (resolveChain ctx env).c6 ≠ [] then ctx.SetErrorMetric
  else ctx

/-- src/unnamed/part_000 lines 277-285: consume the fallback callback
(null it), install the returned forward-proxy address, and put the
auxiliary string into `ForwardProxyAuth` or `Accounting` according to
`ForwardProxyErrorFallbackAuth`. -/
def installFallback (ctx1 : ProxyCtx) (np extra : String) : ProxyCtx :=
  let ctx2 := { ctx1 with ForwardProxyErrorFallback := none }
  let ctx3 := { ctx2 with ForwardProxy := np }
  if ctx3.ForwardProxyErrorFallbackAuth then { ctx3 with ForwardProxyAuth := extra }
  else { ctx3 with Accounting := extra }

/-- src/unnamed/part_000 lines 206-429 (`ProxyCtx.RoundTrip`, one dial
attempt).  Forward mode (a forward proxy is configured, lines 211-296):
on dial failure run the post-mortem resolver chain — note that the `:=`
of line 267 declares a new `err` inside the `if` block, shadowing the
dial error, so the `return nil, err` of line 289 returns the resolver
chain's error — record the error metric when both address families are
non-empty (lines 271-274), then, if the single-use fallback callback is
present, consume it (null it), and if it returned a non-empty address
install the new forward proxy plus the auth or accounting string and
retry (lines 276-288); otherwise return.  Direct mode (lines 298-322):
on dial failure return the raw dial error.  On dial success run the
exchange, with `setTargetKA` true exactly in direct mode. -/
def attempt (ctx : ProxyCtx) (req : Request) (env : AttemptEnv) : AttemptResult :=
  if ctx.ForwardProxy ≠ "" then
    match env.dialErr with
    | some _ =>
      match (dialFailCtx ctx env).ForwardProxyErrorFallback with
      | some (newForwardProxy, extra) =>
        if newForwardProxy ≠ "" then
          .retry (installFallback (dialFailCtx ctx env) newForwardProxy extra)
        else
          .final none (resolveChain ctx env).err
            { dialFailCtx ctx env with ForwardProxyErrorFallback := none } none []
      | none => .final none (resolveChain ctx env).err (dialFailCtx ctx env) none []
    | none => exchange ctx req env false
  else
    match env.dialErr with
    | some e => .final none (some e) ctx none []
    | none => exchange ctx req env true

/-- The recursion of src/unnamed/part_000 line 286
(`return ctx.RoundTrip(req)`): each re-entry consumes the next attempt
environment.  The empty-environment case cannot be reached from a list
holding one environment per dial the run performs, since the fallback is
single-use; it is mapped to a distinguished model error. -/
def roundTrip : ProxyCtx → Request → List AttemptEnv → AttemptResult
  | ctx, _, [] => .final none (some "model: no attempt environment") ctx none []
  | ctx, req, env :: rest =>
    match attempt ctx req env with
    | .retry ctx' => roundTrip ctx' req rest
    | r => r

/-- Split a character list at every occurrence of a separator
character (the list-of-characters counterpart of `strings.Split`). -/
def splitOnChar (c : Char) : List Char → List (List Char)
  | [] => [[]]
  | x :: t =>
    let r := splitOnChar c t
    if x = c then [] :: r
    else
      match r with
      | [] => [[x]]
      | h :: t' => (x :: h) :: t'

/-- Decimal value of a digit string, `none` when the characters are not
all digits (or there are none). -/
def digitsToNat (l : List Char) : Option Nat :=
  if l ≠ [] ∧ l.all (fun c => c.isDigit) then
    some (l.foldl (fun a c => a * 10 + (c.toNat - 48)) 0)
  else none

/-- Whether the characters form a decimal IPv4 octet (0..255). -/
def isOctet (l : List Char) : Bool :=
  match digitsToNat l with
  | some n => n ≤ 255
  | none => false

/-- Modelled from the spec: the host part of a forward-proxy
`host:port` address — the bracketed form keeps what stands between the
brackets, a single-colon form keeps what precedes the colon, anything
else is taken whole. -/
def hostChars (l : List Char) : List Char :=
  if l.head? = some '[' then (l.drop 1).takeWhile (fun c => c ≠ ']')
  else if (l.filter (fun c => c = ':')).length = 1 then l.takeWhile (fun c => c ≠ ':')
  else l

/-- Modelled from the spec: spec paragraphs 6 and the glossary label the
target class by "whether the forward-proxy address is loopback".  A
loopback address is one whose host is an IPv4 address in 127.0.0.0/8 or
the IPv6 loopback `::1`.  This is the spec-side definition, to be
compared with the source's `strings.HasPrefix(fp, "127.0.0.1")` test. -/
def specIsLoopback (addr : String) : Bool :=
  let h := hostChars addr.data
  (match splitOnChar '.' h with
   | [a, b, c, d] =>
     a == ['1', '2', '7'] && isOctet a && isOctet b && isOctet c && isOctet d
   | _ => false) || h == [':', ':', '1']

/-- A context with every claim-relevant knob at its zero value and the
`Requests` metric counter present. -/
def baseCtx : ProxyCtx :=
  { ForwardProxy := "", ForwardProxyAuth := "", ForwardProxyRegWrite := false,
    ForwardProxyErrorFallback := none, ForwardProxyErrorFallbackAuth := false,
    ForwardProxyHeaders := [], Accounting := "", DNSResolver := "", BackupDNSResolver := "",
    TCPKeepAlivePeriod := 0, TCPKeepAliveCount := 0, TCPKeepAliveInterval := 0,
    ProxyReadDeadline := 0, ProxyWriteDeadline := 0, BytesSent := 0, BytesReceived := 0,
    metricsRequestsPresent := true, requestsMetricEvents := [],
    metricsBandwidthPresent := false, bandwidthTotal := 0 }

/-- An environment where every collaborator succeeds and no bytes move. -/
def baseEnv : AttemptEnv :=
  { dialErr := none, primaryResolve := ⟨[], [], none⟩, backupResolve := ⟨[], [], none⟩,
    kaErr := none, wireWrites := [], writeErr := none,
    readsBeforeWriteDone := [], readsAfterWriteDone := [], readErr := none }

/-- A minimal request. -/
def baseReq : Request :=
  { URL := "http://x.test/a", RequestURI := "", Header := [] }

/-- Forward-mode context for the C1 counterexample. -/
def ctxCexC1 : ProxyCtx := { baseCtx with ForwardProxy := "10.0.0.9:3128" }

/-- C1 counterexample environment: a successful exchange in which one
wire read of 5 bytes completes only after the writer's completion signal
was received (a legal schedule of the two workers). -/
def envCexC1 : AttemptEnv :=
  { baseEnv with wireWrites := [4], readsBeforeWriteDone := [3], readsAfterWriteDone := [5] }

/-- C1 witness environment: 4 bytes written, 3 bytes read before the
writer's signal. -/
def envWitC1 : AttemptEnv :=
  { baseEnv with wireWrites := [4], readsBeforeWriteDone := [3] }

/-- The context the C1 witness run ends in. -/
def ctxWitC1 : ProxyCtx := { baseCtx with BytesSent := 4, BytesReceived := 3 }

/-- The connection state the C1 witness run ends with. -/
def connWitC1 : ProxyTCPConn :=
  { BytesWrote := 4, BytesRead := 3, ReadTimeout := 5, WriteTimeout := 5,
    IgnoreDeadlineErrors := true, readDeadline := 0, writeDeadline := 0 }

/-- The event trace of the C1 witness run. -/
def traceWitC1 : List Event :=
  [.kaAttempt, .wrote .standard "http://x.test/a", .recvWriteDone, .recvReadDone]

/-- C2 counterexample context: forward mode, fallback callback present
but yielding an empty replacement address. -/
def ctxCexC2 : ProxyCtx :=
  { baseCtx with
    ForwardProxy := "10.0.0.9:3128",
    ForwardProxyErrorFallback := some ("", "acct") }

/-- C2 counterexample environment: the dial fails. -/
def envCexC2 : AttemptEnv :=
  { baseEnv with
    dialErr := some "connection refused",
    primaryResolve := ⟨["198.51.100.7"], ["2001:db8::7"], none⟩ }

/-- C2 witness context: forward mode with a usable fallback callback
whose auxiliary string is an auth token. -/
def ctxWitC2 : ProxyCtx :=
  { baseCtx with
    ForwardProxy := "10.0.0.9:3128",
    ForwardProxyErrorFallback := some ("10.0.0.10:3128", "tok"),
    ForwardProxyErrorFallbackAuth := true }

/-- C2 witness first attempt: the dial fails. -/
def envWitC2a : AttemptEnv :=
  { baseEnv with dialErr := some "dial tcp: connection refused" }

/-- C2 witness second attempt: the retried dial fails too and the
post-mortem resolution errors. -/
def envWitC2b : AttemptEnv :=
  { baseEnv with
    dialErr := some "dial tcp: no route to host",
    primaryResolve := ⟨[], [], some "resolve failed"⟩ }

/-- C4 counterexample environment: direct-mode exchange whose writer
fails with a non-timeout error. -/
def envCexC4 : AttemptEnv := { baseEnv with writeErr := some "broken pipe" }

/-- C4 witness context: forward mode, so the error counter does fire. -/
def ctxWitC4 : ProxyCtx := { baseCtx with ForwardProxy := "10.0.0.9:3128" }

/-- C4 witness environment: the writer fails with a non-timeout error. -/
def envWitC4 : AttemptEnv := { baseEnv with writeErr := some "broken pipe" }

/-- C5 failing context: forward mode, no fallback. -/
def ctxCexC5 : ProxyCtx := { baseCtx with ForwardProxy := "10.0.0.9:3128" }

/-- C5 failing environment: the dial fails, and the post-mortem resolver
succeeds with both address families non-empty. -/
def envCexC5 : AttemptEnv :=
  { baseEnv with
    dialErr := some "connection refused",
    primaryResolve := ⟨["198.51.100.7"], ["2001:db8::7"], none⟩ }

/-- C6 witness context: direct mode with caller deadlines 7s/9s. -/
def ctxWitC6 : ProxyCtx :=
  { baseCtx with ProxyReadDeadline := 7, ProxyWriteDeadline := 9 }

/-- C6 witness environment: the keepalive configuration fails. -/
def envWitC6 : AttemptEnv := { baseEnv with kaErr := some "keepalive failed" }

/-- C8 witness context: the spec's scenario, forward proxy
`127.0.0.1:8080` with auth token `abc123`. -/
def ctxWitC8 : ProxyCtx :=
  { baseCtx with ForwardProxy := "127.0.0.1:8080", ForwardProxyAuth := "abc123" }

/-- C8 counterexample context: forward proxy with auth token `abc123`
and a custom forward-proxy header that itself names
`Proxy-Authorization`. -/
def ctxCexC8 : ProxyCtx :=
  { baseCtx with
    ForwardProxy := "10.0.0.9:3128", ForwardProxyAuth := "abc123",
    ForwardProxyHeaders := [("Proxy-Authorization", "Bearer zzz")] }

/-- C9 witness connection: non-zero counters and positive timeouts. -/
def connWitC9 : ProxyTCPConn :=
  { BytesWrote := 10, BytesRead := 20, ReadTimeout := 3, WriteTimeout := 4,
    IgnoreDeadlineErrors := false, readDeadline := 0, writeDeadline := 0 }

/-- C9 witness operation sequence: a successful write, a failed read, a
successful read. -/
def opsWitC9 : List ConnOp :=
  [.write 50 2 none, .read 60 3 (some "read reset"), .read 70 6 none]

/-- C10 failing context: forward mode, fallback present but yielding an
empty replacement address. -/
def ctxCexC10 : ProxyCtx :=
  { baseCtx with
    ForwardProxy := "10.0.0.9:3128",
    ForwardProxyErrorFallback := some ("", "acct2") }

/-- C10 failing environment: the dial fails with a concrete error and
the post-mortem resolution succeeds. -/
def envCexC10 : AttemptEnv :=
  { baseEnv with
    dialErr := some "connection refused",
    primaryResolve := ⟨["198.51.100.8"], ["2001:db8::8"], none⟩ }

theorem write_step_spec (c : ProxyTCPConn) (n : Nat) :
    ((c.Write 0 n none).1).BytesWrote = c.BytesWrote + n ∧
    ((c.Write 0 n none).1).BytesRead = c.BytesRead ∧
    ((c.Write 0 n none).1).ReadTimeout = c.ReadTimeout ∧
    ((c.Write 0 n none).1).WriteTimeout = c.WriteTimeout ∧
    ((c.Write 0 n none).1).IgnoreDeadlineErrors = c.IgnoreDeadlineErrors := by
  simp only [ProxyTCPConn.Write, ProxyTCPConn.armWrite]
  split <;> simp

theorem read_step_spec (c : ProxyTCPConn) (n : Nat) :
    ((c.Read 0 n none).1).BytesRead = c.BytesRead + n ∧
    ((c.Read 0 n none).1).BytesWrote = c.BytesWrote ∧
    ((c.Read 0 n none).1).ReadTimeout = c.ReadTimeout ∧
    ((c.Read 0 n none).1).WriteTimeout = c.WriteTimeout ∧
    ((c.Read 0 n none).1).IgnoreDeadlineErrors = c.IgnoreDeadlineErrors := by
  simp only [ProxyTCPConn.Read, ProxyTCPConn.armRead]
  split <;> simp

theorem applyWrites_spec (ns : List Nat) (c : ProxyTCPConn) :
    (applyWrites c ns).BytesWrote = c.BytesWrote + totalBytes ns ∧
    (applyWrites c ns).BytesRead = c.BytesRead ∧
    (applyWrites c ns).ReadTimeout = c.ReadTimeout ∧
    (applyWrites c ns).WriteTimeout = c.WriteTimeout ∧
    (applyWrites c ns).IgnoreDeadlineErrors = c.IgnoreDeadlineErrors := by
  induction ns generalizing c with
  | nil => simp [applyWrites, totalBytes]
  | cons n t ih =>
    have hs := write_step_spec c n
    have ht := ih ((c.Write 0 n none).1)
    simp only [applyWrites, List.foldl] at ht ⊢
    refine ⟨?_, ?_, ?_, ?_, ?_⟩
    · rw [ht.1, hs.1, totalBytes]; ring
    · rw [ht.2.1, hs.2.1]
    · rw [ht.2.2.1, hs.2.2.1]
    · rw [ht.2.2.2.1, hs.2.2.2.1]
    · rw [ht.2.2.2.2, hs.2.2.2.2]

theorem applyReads_spec (ns : List Nat) (c : ProxyTCPConn) :
    (applyReads c ns).BytesRead = c.BytesRead + totalBytes ns ∧
    (applyReads c ns).BytesWrote = c.BytesWrote ∧
    (applyReads c ns).ReadTimeout = c.ReadTimeout ∧
    (applyReads c ns).WriteTimeout = c.WriteTimeout ∧
    (applyReads c ns).IgnoreDeadlineErrors = c.IgnoreDeadlineErrors := by
  induction ns generalizing c with
  | nil => simp [applyReads, totalBytes]
  | cons n t ih =>
    have hs := read_step_spec c n
    have ht := ih ((c.Read 0 n none).1)
    simp only [applyReads, List.foldl] at ht ⊢
    refine ⟨?_, ?_, ?_, ?_, ?_⟩
    · rw [ht.1, hs.1, totalBytes]; ring
    · rw [ht.2.1, hs.2.1]
    · rw [ht.2.2.1, hs.2.2.1]
    · rw [ht.2.2.2.1, hs.2.2.2.1]
    · rw [ht.2.2.2.2, hs.2.2.2.2]

theorem applyOp_mono (c : ProxyTCPConn) (op : ConnOp) :
    c.BytesWrote ≤ (applyOp c op).BytesWrote ∧ c.BytesRead ≤ (applyOp c op).BytesRead := by
  cases op with
  | write now n err =>
    cases err <;>
      simp only [applyOp, ProxyTCPConn.Write, ProxyTCPConn.armWrite] <;>
      split <;> simp
  | read now n err =>
    cases err <;>
      simp only [applyOp, ProxyTCPConn.Read, ProxyTCPConn.armRead] <;>
      split <;> simp

theorem applyOps_mono (ops : List ConnOp) (c : ProxyTCPConn) :
    c.BytesWrote ≤ (applyOps c ops).BytesWrote ∧ c.BytesRead ≤ (applyOps c ops).BytesRead := by
  induction ops generalizing c with
  | nil => simp [applyOps]
  | cons op t ih =>
    have h1 := applyOp_mono c op
    have h2 := ih (applyOp c op)
    simp only [applyOps, List.foldl] at h2 ⊢
    exact ⟨le_trans h1.1 h2.1, le_trans h1.2 h2.2⟩

theorem SetErrorMetric_frame (ctx : ProxyCtx) :
    (ctx.SetErrorMetric).BytesSent = ctx.BytesSent ∧
    (ctx.SetErrorMetric).BytesReceived = ctx.BytesReceived ∧
    (ctx.SetErrorMetric).ForwardProxy = ctx.ForwardProxy ∧
    (ctx.SetErrorMetric).ForwardProxyErrorFallback = ctx.ForwardProxyErrorFallback ∧
    (ctx.SetErrorMetric).ForwardProxyErrorFallbackAuth = ctx.ForwardProxyErrorFallbackAuth ∧
    (ctx.SetErrorMetric).ForwardProxyAuth = ctx.ForwardProxyAuth ∧
    (ctx.SetErrorMetric).Accounting = ctx.Accounting ∧
    (ctx.SetErrorMetric).BackupDNSResolver = ctx.BackupDNSResolver := by
  unfold ProxyCtx.SetErrorMetric
  split <;> simp

theorem SetSuccessMetric_frame (ctx : ProxyCtx) :
    (ctx.SetSuccessMetric).BytesSent = ctx.BytesSent ∧
    (ctx.SetSuccessMetric).BytesReceived = ctx.BytesReceived := by
  unfold ProxyCtx.SetSuccessMetric
  split <;> simp

theorem tunedConn_init (ctx : ProxyCtx) (ka : Bool) (kaErr : Option String) :
    (tunedConn ctx ka kaErr).1.BytesWrote = 0 ∧ (tunedConn ctx ka kaErr).1.BytesRead = 0 := by
  cases ka <;> cases kaErr <;> simp [tunedConn, newProxyTCPConn]

theorem exchange_success_char (ctx : ProxyCtx) (req : Request) (env : AttemptEnv) (ka : Bool)
    (resp : Response) (e : Option String) (ctx' : ProxyCtx) (conn : Option ProxyTCPConn)
    (tr : List Event) (hx : exchange ctx req env ka = .final (some resp) e ctx' conn tr) :
    resp = { body := successBody } ∧ e = none ∧
    env.writeErr = none ∧ env.readErr = none ∧
    ctx'.BytesSent = totalBytes env.wireWrites ∧
    ctx'.BytesReceived = totalBytes env.readsBeforeWriteDone := by
  unfold exchange at hx
  cases hW : env.writeErr with
  | some e' => rw [hW] at hx; simp at hx
  | none =>
    rw [hW] at hx
    cases hR : env.readErr with
    | some e' => rw [hR] at hx; simp at hx
    | none =>
      rw [hR] at hx
      simp only [AttemptResult.final.injEq, Option.some.injEq] at hx
      obtain ⟨hresp, he, hctx, hconn, htr⟩ := hx
      have hinit := tunedConn_init ctx ka env.kaErr
      have hws := applyWrites_spec env.wireWrites (tunedConn ctx ka env.kaErr).1
      have hrs := applyReads_spec env.readsBeforeWriteDone
        (applyWrites (tunedConn ctx ka env.kaErr).1 env.wireWrites)
      refine ⟨hresp.symm, he.symm, rfl, rfl, ?_, ?_⟩
      · rw [← hctx]
        split <;>
          · rw [show ∀ c : ProxyCtx, ∀ x : Int,
                ({ c with bandwidthTotal := x } : ProxyCtx).BytesSent = c.BytesSent
                from fun c x => rfl] <;>
            rw [(SetSuccessMetric_frame _).1] <;>
            · show (applyReads (applyWrites (tunedConn ctx ka env.kaErr).1
                env.wireWrites) env.readsBeforeWriteDone).BytesWrote = _
              rw [hrs.2.1, hws.1, hinit.1]
              ring
      · rw [← hctx]
        split <;>
          · rw [show ∀ c : ProxyCtx, ∀ x : Int,
                ({ c with bandwidthTotal := x } : ProxyCtx).BytesReceived = c.BytesReceived
                from fun c x => rfl] <;>
            rw [(SetSuccessMetric_frame _).2] <;>
            · show (applyReads (applyWrites (tunedConn ctx ka env.kaErr).1
                env.wireWrites) env.readsBeforeWriteDone).BytesRead = _
              rw [hrs.1, hws.2.1, hinit.2]
              ring

theorem attempt_success_char (ctx : ProxyCtx) (req : Request) (env : AttemptEnv)
    (resp : Response) (e : Option String) (ctx' : ProxyCtx) (conn : Option ProxyTCPConn)
    (tr : List Event) (h : attempt ctx req env = .final (some resp) e ctx' conn tr) :
    resp = { body := successBody } ∧ e = none ∧
    env.writeErr = none ∧ env.readErr = none ∧
    ctx'.BytesSent = totalBytes env.wireWrites ∧
    ctx'.BytesReceived = totalBytes env.readsBeforeWriteDone := by
  unfold attempt at h
  split at h
  · split at h
    · split at h
      · split at h
        · simp at h
        · simp at h
      · simp at h
    · have hc := exchange_success_char ctx req env false resp e ctx' conn tr h
      exact ⟨hc.1, hc.2.1, hc.2.2.1, hc.2.2.2.1, hc.2.2.2.2.1, hc.2.2.2.2.2⟩
  · split at h
    · simp at h
    · have hc := exchange_success_char ctx req env true resp e ctx' conn tr h
      exact ⟨hc.1, hc.2.1, hc.2.2.1, hc.2.2.2.1, hc.2.2.2.2.1, hc.2.2.2.2.2⟩

theorem attempt_forward_dial_ok (ctx : ProxyCtx) (req : Request) (env : AttemptEnv)
    (hfp : ctx.ForwardProxy ≠ "") (hd : env.dialErr = none) :
    attempt ctx req env = exchange ctx req env false := by
  unfold attempt
  rw [if_pos hfp, hd]

theorem attempt_direct_dial_ok (ctx : ProxyCtx) (req : Request) (env : AttemptEnv)
    (hfp : ctx.ForwardProxy = "") (hd : env.dialErr = none) :
    attempt ctx req env = exchange ctx req env true := by
  unfold attempt
  rw [if_neg (by simp [hfp]), hd]

theorem exchange_not_retry (ctx : ProxyCtx) (req : Request) (env : AttemptEnv) (ka : Bool) :
    (exchange ctx req env ka).isRetry = false := by
  unfold exchange
  cases env.writeErr with
  | some e => simp [AttemptResult.isRetry]
  | none =>
    cases env.readErr with
    | some e => simp [AttemptResult.isRetry]
    | none => simp [AttemptResult.isRetry]

theorem roundTrip_of_not_retry (ctx : ProxyCtx) (req : Request) (env : AttemptEnv)
    (rest : List AttemptEnv) (h : (attempt ctx req env).isRetry = false) :
    roundTrip ctx req (env :: rest) = attempt ctx req env := by
  unfold roundTrip
  cases hA : attempt ctx req env with
  | retry c => rw [hA] at h; simp [AttemptResult.isRetry] at h
  | final r e c cn tr => rfl

theorem exchange_conn_trace (ctx : ProxyCtx) (req : Request) (env : AttemptEnv) (ka : Bool) :
    (exchange ctx req env ka).connOf.map
        (fun c => (c.ReadTimeout, c.WriteTimeout, c.IgnoreDeadlineErrors))
      = some ((tunedConn ctx ka env.kaErr).1.ReadTimeout,
              (tunedConn ctx ka env.kaErr).1.WriteTimeout,
              (tunedConn ctx ka env.kaErr).1.IgnoreDeadlineErrors) ∧
    (exchange ctx req env ka).traceOf
      = (tunedConn ctx ka env.kaErr).2
        ++ [Event.wrote (writeFormOf ctx) req.URL, Event.recvWriteDone]
        ++ (if env.writeErr = none then [Event.recvReadDone] else []) := by
  have hws := applyWrites_spec env.wireWrites (tunedConn ctx ka env.kaErr).1
  have hrs := applyReads_spec env.readsBeforeWriteDone
    (applyWrites (tunedConn ctx ka env.kaErr).1 env.wireWrites)
  have hra := applyReads_spec env.readsAfterWriteDone
    (applyReads (applyWrites (tunedConn ctx ka env.kaErr).1 env.wireWrites)
      env.readsBeforeWriteDone)
  unfold exchange
  cases hW : env.writeErr with
  | some e =>
    constructor
    · simp only [AttemptResult.connOf, Option.map_some']
      rw [hrs.2.2.1, hrs.2.2.2.1, hrs.2.2.2.2, hws.2.2.1, hws.2.2.2.1, hws.2.2.2.2]
    · simp [AttemptResult.traceOf, prepareReq]
  | none =>
    cases hR : env.readErr with
    | some e =>
      constructor
      · simp only [AttemptResult.connOf, Option.map_some']
        rw [hra.2.2.1, hra.2.2.2.1, hra.2.2.2.2, hrs.2.2.1, hrs.2.2.2.1, hrs.2.2.2.2,
            hws.2.2.1, hws.2.2.2.1, hws.2.2.2.2]
      · simp [AttemptResult.traceOf, prepareReq]
    | none =>
      constructor
      · simp only [AttemptResult.connOf, Option.map_some']
        rw [hra.2.2.1, hra.2.2.2.1, hra.2.2.2.2, hrs.2.2.1, hrs.2.2.2.1, hrs.2.2.2.2,
            hws.2.2.1, hws.2.2.2.1, hws.2.2.2.2]
      · simp [AttemptResult.traceOf, prepareReq]

theorem dialFailCtx_frame (ctx : ProxyCtx) (env : AttemptEnv) :
    (dialFailCtx ctx env).ForwardProxyErrorFallback = ctx.ForwardProxyErrorFallback ∧
    (dialFailCtx ctx env).ForwardProxy = ctx.ForwardProxy ∧
    (dialFailCtx ctx env).ForwardProxyErrorFallbackAuth = ctx.ForwardProxyErrorFallbackAuth ∧
    (dialFailCtx ctx env).ForwardProxyAuth = ctx.ForwardProxyAuth ∧
    (dialFailCtx ctx env).Accounting = ctx.Accounting ∧
    (dialFailCtx ctx env).BackupDNSResolver = ctx.BackupDNSResolver := by
  unfold dialFailCtx ProxyCtx.SetErrorMetric
  split
  · split <;> simp
  · simp

theorem installFallback_spec (c : ProxyCtx) (np extra : String) :
    (installFallback c np extra).ForwardProxy = np ∧
    (installFallback c np extra).ForwardProxyErrorFallback = none ∧
    (installFallback c np extra).ForwardProxyAuth
      = (if c.ForwardProxyErrorFallbackAuth then extra else c.ForwardProxyAuth) ∧
    (installFallback c np extra).Accounting
      = (if c.ForwardProxyErrorFallbackAuth then c.Accounting else extra) := by
  unfold installFallback
  split <;> simp_all

theorem tunedConn_trace (ctx : ProxyCtx) (ka : Bool) (kaErr : Option String) :
    (tunedConn ctx ka kaErr).2 = (if ka then [Event.kaAttempt] else []) := by
  cases ka <;> cases kaErr <;> simp [tunedConn]

theorem attempt_dial_err_trace (ctx : ProxyCtx) (req : Request) (env : AttemptEnv)
    (d : String) (hd : env.dialErr = some d) :
    (attempt ctx req env).traceOf = [] := by
  unfold attempt
  split
  · rw [hd]
    dsimp only
    split
    · split <;> simp [AttemptResult.traceOf]
    · simp [AttemptResult.traceOf]
  · rw [hd]
    simp [AttemptResult.traceOf]

theorem roundTrip_cons_retry (ctx c : ProxyCtx) (req : Request) (env : AttemptEnv)
    (rest : List AttemptEnv) (h : attempt ctx req env = .retry c) :
    roundTrip ctx req (env :: rest) = roundTrip c req rest := by
  simp only [roundTrip, h]

theorem exchange_write_err (ctx : ProxyCtx) (req : Request) (env : AttemptEnv) (ka : Bool)
    (e : String) (hw : env.writeErr = some e) :
    exchange ctx req env ka = .final none (some e)
      (if goContains e "timeout" = false then ctx.SetErrorMetric else ctx)
      (some (applyReads (applyWrites (tunedConn ctx ka env.kaErr).1 env.wireWrites)
        env.readsBeforeWriteDone))
      ((tunedConn ctx ka env.kaErr).2
        ++ [Event.wrote (writeFormOf ctx) req.URL, Event.recvWriteDone]) := by
  unfold exchange
  rw [hw]
  rfl

theorem SetErrorMetric_counts (ctx : ProxyCtx) :
    errCount ctx.SetErrorMetric
      = errCount ctx + (if ctx.ForwardProxy ≠ "" ∧ ctx.metricsRequestsPresent then 1 else 0) ∧
    okCount ctx.SetErrorMetric = okCount ctx := by
  unfold ProxyCtx.SetErrorMetric errCount okCount
  split <;> simp_all

theorem SetSuccessMetric_counts (ctx : ProxyCtx) :
    okCount ctx.SetSuccessMetric
      = okCount ctx + (if ctx.ForwardProxy ≠ "" ∧ ctx.metricsRequestsPresent then 1 else 0) ∧
    errCount ctx.SetSuccessMetric = errCount ctx := by
  unfold ProxyCtx.SetSuccessMetric errCount okCount
  split <;> simp_all

/-- Claim C6 (confirmed): whenever keepalive configuration fails (it
is only attempted in direct mode; in forward mode no attempt happens),
the instrumented connection used for the exchange carries the
caller-specified proxy read/write deadlines as its timeouts and
`IgnoreDeadlineErrors` cleared. -/
theorem C6_keepalive_degrade (ctx : ProxyCtx) (req : Request) (env : AttemptEnv) (e : String) :
    (ctx.ForwardProxy = "" → env.dialErr = none → env.kaErr = some e →
      (attempt ctx req env).connOf.map
          (fun c => (c.ReadTimeout, c.WriteTimeout, c.IgnoreDeadlineErrors))
        = some (ctx.ProxyReadDeadline, ctx.ProxyWriteDeadline, false) ∧
      Event.kaAttempt ∈ (attempt ctx req env).traceOf) ∧
    (ctx.ForwardProxy ≠ "" → Event.kaAttempt ∉ (attempt ctx req env).traceOf) := by
  constructor
  · intro h1 h2 h3
    rw [attempt_direct_dial_ok ctx req env h1 h2]
    have hct := exchange_conn_trace ctx req env true
    constructor
    · rw [hct.1, h3]
      simp [tunedConn]
    · rw [hct.2, h3]
      simp [tunedConn]
  · intro hfp
    cases hD : env.dialErr with
    | some d =>
      rw [attempt_dial_err_trace ctx req env d hD]
      simp
    | none =>
      rw [attempt_forward_dial_ok ctx req env hfp hD]
      rw [(exchange_conn_trace ctx req env false).2]
      rw [tunedConn_trace]
      split <;> simp_all

/-- Claim C4 (amended): for every exchange in which the writer signals
an error, the orchestrator returns that error at once — the reader's
completion signal is never received and the retry machinery is not
entered — `BytesSent`/`BytesReceived` are left untouched, the success
metric is never recorded, and the error counter is incremented exactly
when the error text does not contain "timeout" AND a forward proxy and
a request-metrics counter are configured. -/
theorem C4_write_error_abort (ctx : ProxyCtx) (req : Request) (env : AttemptEnv) (e : String)
    (rest : List AttemptEnv) (hd : env.dialErr = none) (hw : env.writeErr = some e) :
    roundTrip ctx req (env :: rest) = attempt ctx req env ∧
    (attempt ctx req env).errOf = some e ∧
    (attempt ctx req env).respOf = none ∧
    Event.recvReadDone ∉ (attempt ctx req env).traceOf ∧
    (attempt ctx req env).ctxOf.BytesSent = ctx.BytesSent ∧
    (attempt ctx req env).ctxOf.BytesReceived = ctx.BytesReceived ∧
    okCount (attempt ctx req env).ctxOf = okCount ctx ∧
    errCount (attempt ctx req env).ctxOf
      = errCount ctx
        + (if goContains e "timeout" = false ∧ ctx.ForwardProxy ≠ "" ∧ ctx.metricsRequestsPresent
           then 1 else 0) := by
  have hex : ∃ ka, attempt ctx req env = exchange ctx req env ka := by
    by_cases hfp : ctx.ForwardProxy = ""
    · exact ⟨true, attempt_direct_dial_ok ctx req env hfp hd⟩
    · exact ⟨false, attempt_forward_dial_ok ctx req env hfp hd⟩
  obtain ⟨ka, hka⟩ := hex
  have hfin := exchange_write_err ctx req env ka e hw
  rw [hka, hfin]
  have hretry : (attempt ctx req env).isRetry = false := by
    rw [hka, hfin]; rfl
  refine ⟨?_, rfl, rfl, ?_, ?_, ?_, ?_, ?_⟩
  · rw [roundTrip_of_not_retry ctx req env rest hretry, hka, hfin]
  · show Event.recvReadDone ∉
      (tunedConn ctx ka env.kaErr).2 ++ [Event.wrote (writeFormOf ctx) req.URL, Event.recvWriteDone]
    rw [tunedConn_trace]
    split <;> simp
  · show (if goContains e "timeout" = false then ctx.SetErrorMetric else ctx).BytesSent = _
    split
    · exact (SetErrorMetric_frame ctx).1
    · rfl
  · show (if goContains e "timeout" = false then ctx.SetErrorMetric else ctx).BytesReceived = _
    split
    · exact (SetErrorMetric_frame ctx).2.1
    · rfl
  · show okCount (if goContains e "timeout" = false then ctx.SetErrorMetric else ctx) = _
    split
    · exact (SetErrorMetric_counts ctx).2
    · rfl
  · show errCount (if goContains e "timeout" = false then ctx.SetErrorMetric else ctx) = _
    by_cases hg : goContains e "timeout" = false
    · rw [if_pos hg, (SetErrorMetric_counts ctx).1]
      by_cases hm : ctx.ForwardProxy ≠ "" ∧ ctx.metricsRequestsPresent
      · rw [if_pos hm, if_pos ⟨hg, hm⟩]
      · rw [if_neg hm, if_neg (by simp_all)]
    · rw [if_neg hg, if_neg (by simp_all)]
      simp

/-- Claim C2 (amended): on a forward-mode dial failure with a fallback
callback present that returns a non-empty replacement address, exactly
one retry occurs: the replacement forward proxy is installed, the
callback is nulled before the retry, and the auxiliary string lands in
`ForwardProxyAuth` or `Accounting` per the `ErrorFallbackAuth` flag.  A
second dial failure on the retried context does not retry again; the
exchange fails, returning the second attempt's post-mortem
resolver-chain error (the raw dial error is shadowed — see claim C5). -/
theorem C2_fallback_single_retry (ctx : ProxyCtx) (req : Request) (env1 env2 : AttemptEnv)
    (rest : List AttemptEnv) (e1 e2 np extra : String)
    (hfp : ctx.ForwardProxy ≠ "") (hd1 : env1.dialErr = some e1)
    (hfb : ctx.ForwardProxyErrorFallback = some (np, extra)) (hnp : np ≠ "")
    (hd2 : env2.dialErr = some e2) :
    attempt ctx req env1 = .retry (installFallback (dialFailCtx ctx env1) np extra) ∧
    (installFallback (dialFailCtx ctx env1) np extra).ForwardProxy = np ∧
    (installFallback (dialFailCtx ctx env1) np extra).ForwardProxyErrorFallback = none ∧
    (installFallback (dialFailCtx ctx env1) np extra).ForwardProxyAuth
      = (if ctx.ForwardProxyErrorFallbackAuth then extra else ctx.ForwardProxyAuth) ∧
    (installFallback (dialFailCtx ctx env1) np extra).Accounting
      = (if ctx.ForwardProxyErrorFallbackAuth then ctx.Accounting else extra) ∧
    roundTrip ctx req (env1 :: env2 :: rest)
      = attempt (installFallback (dialFailCtx ctx env1) np extra) req env2 ∧
    (attempt (installFallback (dialFailCtx ctx env1) np extra) req env2).isRetry = false ∧
    (attempt (installFallback (dialFailCtx ctx env1) np extra) req env2).respOf = none ∧
    (attempt (installFallback (dialFailCtx ctx env1) np extra) req env2).errOf
      = (resolveChain (installFallback (dialFailCtx ctx env1) np extra) env2).err := by
  have hdf := dialFailCtx_frame ctx env1
  have hif := installFallback_spec (dialFailCtx ctx env1) np extra
  have hF : (dialFailCtx ctx env1).ForwardProxyErrorFallback = some (np, extra) := by
    rw [hdf.1, hfb]
  have h1 : attempt ctx req env1 = .retry (installFallback (dialFailCtx ctx env1) np extra) := by
    unfold attempt
    rw [if_pos hfp, hd1]
    dsimp only
    rw [hF]
    dsimp only
    rw [if_pos hnp]
  set ctx2 := installFallback (dialFailCtx ctx env1) np extra with hctx2
  have hfp2 : ctx2.ForwardProxy ≠ "" := by
    rw [hctx2, hif.1]; exact hnp
  have hF2 : (dialFailCtx ctx2 env2).ForwardProxyErrorFallback = none := by
    rw [(dialFailCtx_frame ctx2 env2).1, hctx2, hif.2.1]
  have h6 : attempt ctx2 req env2
      = .final none (resolveChain ctx2 env2).err (dialFailCtx ctx2 env2) none [] := by
    unfold attempt
    rw [if_pos hfp2, hd2]
    dsimp only
    rw [hF2]
  have hretry : (attempt ctx2 req env2).isRetry = false := by rw [h6]; rfl
  refine ⟨h1, hif.1, hif.2.1, ?_, ?_, ?_, hretry, ?_, ?_⟩
  · rw [hif.2.2.1, hdf.2.2.1, hdf.2.2.2.1]
  · rw [hif.2.2.2, hdf.2.2.1, hdf.2.2.2.2.1]
  · rw [roundTrip_cons_retry ctx ctx2 req env1 (env2 :: rest) h1,
        roundTrip_of_not_retry ctx2 req env2 rest hretry]
  · rw [h6]; rfl
  · rw [h6]; rfl

/-- Claim C1 (amended): for every attempt in which dial, write and read
all succeed, the Request Context's `BytesSent` equals the total bytes
written to the wire over the instrumented connection, and
`BytesReceived` equals the bytes read from the wire up to the moment the
orchestrator received the writer's completion signal (bytes the reader
takes off the wire after that moment are not reflected); the fields are
plain values, so re-reading them yields the same values. -/
theorem C1_final_attempt_bytes (ctx : ProxyCtx) (req : Request) (env : AttemptEnv)
    (resp : Response) (ctx' : ProxyCtx) (conn : Option ProxyTCPConn) (tr : List Event)
    (h : attempt ctx req env = .final (some resp) none ctx' conn tr) :
    ctx'.BytesSent = totalBytes env.wireWrites ∧
    ctx'.BytesReceived = totalBytes env.readsBeforeWriteDone := by
  have hc := attempt_success_char ctx req env resp none ctx' conn tr h
  exact ⟨hc.2.2.2.2.1, hc.2.2.2.2.2⟩

/-- A connection-closer state that `Close` leaves unchanged is a fixed
point of any number of iterated closes. -/
theorem closeIter_fixed (s : ConnCloser) (hs : (s.Close).1 = s) (k : Nat) :
    closeIter k s = s := by
  induction k with
  | zero => rfl
  | succ k ih => simp only [closeIter, hs, ih]

/-- Claim C3 (confirmed): for every response the orchestrator returns,
calling `Close` on the response body any number of times at least once
closes the underlying connection exactly once (the close effect count
grows by exactly one), and iterating `Close` beyond the first call does
not change the state (idempotent close). -/
theorem C3_close_idempotent (ctx : ProxyCtx) (req : Request) (env : AttemptEnv)
    (resp : Response) (e : Option String) (ctx' : ProxyCtx) (conn : Option ProxyTCPConn)
    (tr : List Event) (k : Nat)
    (h : attempt ctx req env = .final (some resp) e ctx' conn tr) :
    (closeIter (k + 1) resp.body).Conn.closeEffects = resp.body.Conn.closeEffects + 1 ∧
    closeIter (k + 1) resp.body = closeIter 1 resp.body := by
  have hr : resp = { body := successBody } :=
    (attempt_success_char ctx req env resp e ctx' conn tr h).1
  subst hr
  have hfix : (((successBody.Close).1).Close).1 = (successBody.Close).1 := by decide
  constructor
  · show (closeIter (k + 1) successBody).Conn.closeEffects = successBody.Conn.closeEffects + 1
    simp only [closeIter]
    rw [closeIter_fixed _ hfix k]
    decide
  · show closeIter (k + 1) successBody = closeIter 1 successBody
    simp only [closeIter]
    rw [closeIter_fixed _ hfix k]

/-- Claim C9 (confirmed): for every write on the instrumented
connection a deadline of `now + timeout` is armed beforehand when a
positive write timeout is configured; on success the deadline is
disarmed and `BytesWrote` grows by exactly `n`, and on error the counter
is unchanged — symmetrically for reads — so the cumulative counters are
monotonically non-decreasing across any sequence of operations. -/
theorem C9_instrumented_conn (conn : ProxyTCPConn) (now : Int) (n : Nat) (e : String)
    (ops : List ConnOp) (hw : conn.WriteTimeout > 0) (hr : conn.ReadTimeout > 0) :
    (conn.armWrite now).writeDeadline = now + conn.WriteTimeout ∧
    (conn.armRead now).readDeadline = now + conn.ReadTimeout ∧
    ((conn.Write now n none).1).writeDeadline = 0 ∧
    ((conn.Write now n none).1).BytesWrote = conn.BytesWrote + n ∧
    ((conn.Write now n (some e)).1).BytesWrote = conn.BytesWrote ∧
    ((conn.Read now n none).1).readDeadline = 0 ∧
    ((conn.Read now n none).1).BytesRead = conn.BytesRead + n ∧
    ((conn.Read now n (some e)).1).BytesRead = conn.BytesRead ∧
    conn.BytesWrote ≤ (applyOps conn ops).BytesWrote ∧
    conn.BytesRead ≤ (applyOps conn ops).BytesRead := by
  have hm := applyOps_mono ops conn
  refine ⟨?_, ?_, ?_, ?_, ?_, ?_, ?_, ?_, hm.1, hm.2⟩
  · simp [ProxyTCPConn.armWrite, hw]
  · simp [ProxyTCPConn.armRead, hr]
  · simp [ProxyTCPConn.Write]
  · simp only [ProxyTCPConn.Write, ProxyTCPConn.armWrite]
    split <;> simp
  · simp only [ProxyTCPConn.Write, ProxyTCPConn.armWrite]
    split <;> simp
  · simp [ProxyTCPConn.Read]
  · simp only [ProxyTCPConn.Read, ProxyTCPConn.armRead]
    split <;> simp
  · simp only [ProxyTCPConn.Read, ProxyTCPConn.armRead]
    split <;> simp

/-- Claim C7 (amended): every request metric emitted by
`SetErrorMetric` or `SetSuccessMetric` carries the target-class label of
the configured forward-proxy address, and that label is `"local"` if and
only if the address string starts with `"127.0.0.1"` (`"spoof"`
otherwise) — a string-prefix test, not a loopback test. -/
theorem C7_target_label (ctx : ProxyCtx) :
    ((ctx.SetErrorMetric).requestsMetricEvents = ctx.requestsMetricEvents ∨
      (ctx.SetErrorMetric).requestsMetricEvents
        = ctx.requestsMetricEvents ++ [(targetLabel ctx.ForwardProxy, "err")]) ∧
    ((ctx.SetSuccessMetric).requestsMetricEvents = ctx.requestsMetricEvents ∨
      (ctx.SetSuccessMetric).requestsMetricEvents
        = ctx.requestsMetricEvents ++ [(targetLabel ctx.ForwardProxy, "ok")]) ∧
    (targetLabel ctx.ForwardProxy = "local"
      ↔ goStartsWith ctx.ForwardProxy "127.0.0.1" = true) ∧
    (targetLabel ctx.ForwardProxy = "spoof"
      ↔ goStartsWith ctx.ForwardProxy "127.0.0.1" = false) := by
  refine ⟨?_, ?_, ?_, ?_⟩
  · unfold ProxyCtx.SetErrorMetric
    split <;> simp
  · unfold ProxyCtx.SetSuccessMetric
    split <;> simp
  · unfold targetLabel
    split <;> simp_all
  · unfold targetLabel
    split <;> simp_all

theorem headerGet_set_self (h : List (String × String)) (k v : String) :
    headerGet (headerSet h k v) k = v := by
  induction h with
  | nil => simp [headerSet, headerGet]
  | cons p t ih =>
    obtain ⟨k', v'⟩ := p
    by_cases hk : k' = k
    · simp [headerSet, headerGet, hk]
    · simp [headerSet, headerGet, hk, ih]

theorem headerGet_set_other (h : List (String × String)) (k k' v : String) (hne : k' ≠ k) :
    headerGet (headerSet h k' v) k = headerGet h k := by
  induction h with
  | nil => simp [headerSet, headerGet, hne]
  | cons p t ih =>
    obtain ⟨k0, v0⟩ := p
    by_cases hk : k0 = k'
    · simp [headerSet, headerGet, hk, hne]
    · by_cases hk2 : k0 = k
      · simp [headerSet, headerGet, hk, hk2, Ne.symm hne]
      · simp [headerSet, headerGet, hk, hk2, ih]

theorem headerGet_foldl_other (l : List (String × String)) (h : List (String × String))
    (k : String) (hl : ∀ p ∈ l, p.1 ≠ k) :
    headerGet (l.foldl (fun acc p => headerSet acc p.1 p.2) h) k = headerGet h k := by
  induction l generalizing h with
  | nil => simp
  | cons p t ih =>
    simp only [List.foldl]
    rw [ih (headerSet h p.1 p.2) (fun q hq => hl q (List.mem_cons_of_mem p hq))]
    exact headerGet_set_other h k p.1 p.2 (hl p (List.mem_cons_self p t))

/-- Claim C8 (amended): for every exchange through a forward proxy with
a non-empty auth token, provided no custom forward-proxy header of the
name `Proxy-Authorization` is configured, the connect/relay request
carries the header `Proxy-Authorization: Basic <token>`; the writer
serializes in proxy-relay wire form exactly when `RegWrite` is not
forced (standard form otherwise), with the request-URI set to the full
URL string.  The proviso is forced by the source: the closure of
src/unnamed/part_000 lines 232-242 sets the custom headers verbatim
after the auth header, so a custom header of that name overwrites the
`Basic` value (see the counterexample). -/
theorem C8_forward_writer (ctx : ProxyCtx) (req : Request) (env : AttemptEnv)
    (h : List (String × String))
    (hfp : ctx.ForwardProxy ≠ "") (hauth : ctx.ForwardProxyAuth ≠ "")
    (hph : ∀ p ∈ ctx.ForwardProxyHeaders, p.1 ≠ "Proxy-Authorization") :
    headerGet (applyConnectHeaders ctx h) "Proxy-Authorization"
      = "Basic " ++ ctx.ForwardProxyAuth ∧
    (ctx.ForwardProxyRegWrite = false → writeFormOf ctx = .proxyRelay) ∧
    (ctx.ForwardProxyRegWrite = true → writeFormOf ctx = .standard) ∧
    (prepareReq req).RequestURI = req.URL ∧
    (env.dialErr = none →
      Event.wrote (writeFormOf ctx) req.URL ∈ (attempt ctx req env).traceOf) := by
  refine ⟨?_, ?_, ?_, rfl, ?_⟩
  · unfold applyConnectHeaders
    rw [if_pos hauth]
    rw [headerGet_foldl_other ctx.ForwardProxyHeaders _ _ hph]
    exact headerGet_set_self h "Proxy-Authorization" ("Basic " ++ ctx.ForwardProxyAuth)
  · intro hreg
    unfold writeFormOf
    rw [if_pos ⟨hfp, hreg⟩]
  · intro hreg
    unfold writeFormOf
    rw [if_neg (by simp [hreg])]
  · intro hd
    rw [attempt_forward_dial_ok ctx req env hfp hd]
    rw [(exchange_conn_trace ctx req env false).2]
    simp

/-- Claim C1 counterexample: a successful forward-mode exchange in
which a 5-byte wire read completes after the writer's completion signal
was received; the connection's total bytes read is 8, yet
`BytesReceived` records 3, so `BytesReceived` does not equal the total
bytes read from the wire for the attempt. -/
theorem C1_counterexample :
    (attempt ctxCexC1 baseReq envCexC1).respOf.isSome = true ∧
    (attempt ctxCexC1 baseReq envCexC1).errOf = none ∧
    (attempt ctxCexC1 baseReq envCexC1).connOf.map ProxyTCPConn.BytesRead = some 8 ∧
    (attempt ctxCexC1 baseReq envCexC1).ctxOf.BytesReceived = 3 := by decide

/-- Claim C1 witness: a successful direct-mode exchange with 4 bytes
written and 3 read before the writer's signal records exactly those. -/
theorem C1_witness :
    ctxWitC1.BytesSent = totalBytes envWitC1.wireWrites ∧
    ctxWitC1.BytesReceived = totalBytes envWitC1.readsBeforeWriteDone :=
  C1_final_attempt_bytes baseCtx baseReq envWitC1 { body := successBody } ctxWitC1
    (some connWitC1) traceWitC1 rfl

/-- Claim C2 counterexample: a forward-mode dial failure with a
fallback callback present (yielding an empty replacement address)
produces no retry, falsifying "exactly one retry occurs" as stated. -/
theorem C2_counterexample :
    ctxCexC2.ForwardProxyErrorFallback = some ("", "acct") ∧
    envCexC2.dialErr = some "connection refused" ∧
    (attempt ctxCexC2 baseReq envCexC2).isRetry = false := by decide

/-- Claim C2 witness: the amended single-retry behaviour at a concrete
forward-mode context whose fallback yields `10.0.0.10:3128`. -/
theorem C2_witness :
    attempt ctxWitC2 baseReq envWitC2a
      = .retry (installFallback (dialFailCtx ctxWitC2 envWitC2a) "10.0.0.10:3128" "tok") ∧
    (installFallback (dialFailCtx ctxWitC2 envWitC2a) "10.0.0.10:3128" "tok").ForwardProxy
      = "10.0.0.10:3128" ∧
    (installFallback (dialFailCtx ctxWitC2 envWitC2a) "10.0.0.10:3128" "tok").ForwardProxyErrorFallback
      = none ∧
    (installFallback (dialFailCtx ctxWitC2 envWitC2a) "10.0.0.10:3128" "tok").ForwardProxyAuth
      = (if ctxWitC2.ForwardProxyErrorFallbackAuth then "tok" else ctxWitC2.ForwardProxyAuth) ∧
    (installFallback (dialFailCtx ctxWitC2 envWitC2a) "10.0.0.10:3128" "tok").Accounting
      = (if ctxWitC2.ForwardProxyErrorFallbackAuth then ctxWitC2.Accounting else "tok") ∧
    roundTrip ctxWitC2 baseReq (envWitC2a :: envWitC2b :: [])
      = attempt (installFallback (dialFailCtx ctxWitC2 envWitC2a) "10.0.0.10:3128" "tok")
          baseReq envWitC2b ∧
    (attempt (installFallback (dialFailCtx ctxWitC2 envWitC2a) "10.0.0.10:3128" "tok")
        baseReq envWitC2b).isRetry = false ∧
    (attempt (installFallback (dialFailCtx ctxWitC2 envWitC2a) "10.0.0.10:3128" "tok")
        baseReq envWitC2b).respOf = none ∧
    (attempt (installFallback (dialFailCtx ctxWitC2 envWitC2a) "10.0.0.10:3128" "tok")
        baseReq envWitC2b).errOf
      = (resolveChain (installFallback (dialFailCtx ctxWitC2 envWitC2a) "10.0.0.10:3128" "tok")
          envWitC2b).err :=
  C2_fallback_single_retry ctxWitC2 baseReq envWitC2a envWitC2b []
    "dial tcp: connection refused" "dial tcp: no route to host" "10.0.0.10:3128" "tok"
    (by decide) rfl rfl (by decide) rfl

/-- Claim C3 witness: three closes of a returned response body have the
same state as one, and exactly one close effect. -/
theorem C3_witness :
    (closeIter 3 ({ body := successBody } : Response).body).Conn.closeEffects
      = ({ body := successBody } : Response).body.Conn.closeEffects + 1 ∧
    closeIter 3 ({ body := successBody } : Response).body
      = closeIter 1 ({ body := successBody } : Response).body :=
  C3_close_idempotent baseCtx baseReq envWitC1 { body := successBody } none ctxWitC1
    (some connWitC1) traceWitC1 2 rfl

/-- Claim C4 counterexample: a direct-mode exchange whose writer fails
with "broken pipe" (no "timeout" in the text) increments no error
counter, falsifying "the error metric is incremented unless the error
text contains timeout" as stated. -/
theorem C4_counterexample :
    goContains "broken pipe" "timeout" = false ∧
    baseCtx.metricsRequestsPresent = true ∧
    (attempt baseCtx baseReq envCexC4).errOf = some "broken pipe" ∧
    errCount (attempt baseCtx baseReq envCexC4).ctxOf = 0 := by decide

/-- Claim C4 witness: the amended write-error behaviour at a concrete
forward-mode context, where the error counter does fire. -/
theorem C4_witness :
    roundTrip ctxWitC4 baseReq (envWitC4 :: []) = attempt ctxWitC4 baseReq envWitC4 ∧
    (attempt ctxWitC4 baseReq envWitC4).errOf = some "broken pipe" ∧
    (attempt ctxWitC4 baseReq envWitC4).respOf = none ∧
    Event.recvReadDone ∉ (attempt ctxWitC4 baseReq envWitC4).traceOf ∧
    (attempt ctxWitC4 baseReq envWitC4).ctxOf.BytesSent = ctxWitC4.BytesSent ∧
    (attempt ctxWitC4 baseReq envWitC4).ctxOf.BytesReceived = ctxWitC4.BytesReceived ∧
    okCount (attempt ctxWitC4 baseReq envWitC4).ctxOf = okCount ctxWitC4 ∧
    errCount (attempt ctxWitC4 baseReq envWitC4).ctxOf
      = errCount ctxWitC4
        + (if goContains "broken pipe" "timeout" = false ∧ ctxWitC4.ForwardProxy ≠ ""
              ∧ ctxWitC4.metricsRequestsPresent
           then 1 else 0) :=
  C4_write_error_abort ctxWitC4 baseReq envWitC4 "broken pipe" [] rfl rfl

/-- Claim C5: at a forward-mode dial failure where the post-mortem
resolver succeeds with both address families non-empty, the error
counter is incremented (the classification side of the claim), but the
exchange returns a `nil` response together with a `nil` error: the `:=`
of src/unnamed/part_000 line 267 shadows the dial error, so the
resolver chain's error — `nil` here — propagates instead of the raw
dial error `"connection refused"`. -/
theorem C5_shadowed_dial_error :
    envCexC5.dialErr = some "connection refused" ∧
    (envCexC5.primaryResolve.c4 ≠ [] ∧ envCexC5.primaryResolve.c6 ≠ []) ∧
    errCount (attempt ctxCexC5 baseReq envCexC5).ctxOf = errCount ctxCexC5 + 1 ∧
    (attempt ctxCexC5 baseReq envCexC5).respOf = none ∧
    (attempt ctxCexC5 baseReq envCexC5).errOf = none := by decide

/-- Claim C6 witness: a direct-mode exchange with deadlines 7s/9s and a
failing keepalive configuration degrades the connection as claimed. -/
theorem C6_witness :
    (attempt ctxWitC6 baseReq envWitC6).connOf.map
        (fun c => (c.ReadTimeout, c.WriteTimeout, c.IgnoreDeadlineErrors))
      = some (7, 9, false) ∧
    Event.kaAttempt ∈ (attempt ctxWitC6 baseReq envWitC6).traceOf :=
  (C6_keepalive_degrade ctxWitC6 baseReq envWitC6 "keepalive failed").1 rfl rfl rfl

/-- Claim C7 counterexample: `127.0.0.2:8080` is a loopback address
(127.0.0.0/8), yet an emitted error metric for it carries the label
`"spoof"`, because the source tests the string prefix `"127.0.0.1"`,
not loopback membership. -/
theorem C7_counterexample :
    specIsLoopback "127.0.0.2:8080" = true ∧
    targetLabel "127.0.0.2:8080" = "spoof" ∧
    (ProxyCtx.SetErrorMetric { baseCtx with ForwardProxy := "127.0.0.2:8080" }).requestsMetricEvents
      = [("spoof", "err")] := by decide

/-- Claim C8 counterexample: with auth `abc123` and a configured custom
forward-proxy header `Proxy-Authorization: Bearer zzz`, the verbatim
assignment of src/unnamed/part_000 line 240 runs after the auth
`Header.Set` of line 233 and overwrites it, so the connect/relay request
does not carry `Basic abc123`. -/
theorem C8_counterexample :
    ctxCexC8.ForwardProxyAuth = "abc123" ∧
    ctxCexC8.ForwardProxyRegWrite = false ∧
    headerGet (applyConnectHeaders ctxCexC8 []) "Proxy-Authorization" = "Bearer zzz" ∧
    headerGet (applyConnectHeaders ctxCexC8 []) "Proxy-Authorization"
      ≠ "Basic " ++ ctxCexC8.ForwardProxyAuth := by decide

/-- Claim C8 witness: the spec's scenario — forward proxy
`127.0.0.1:8080` with auth `abc123`. -/
theorem C8_witness :
    headerGet (applyConnectHeaders ctxWitC8 []) "Proxy-Authorization"
      = "Basic " ++ ctxWitC8.ForwardProxyAuth ∧
    (ctxWitC8.ForwardProxyRegWrite = false → writeFormOf ctxWitC8 = .proxyRelay) ∧
    (ctxWitC8.ForwardProxyRegWrite = true → writeFormOf ctxWitC8 = .standard) ∧
    (prepareReq baseReq).RequestURI = baseReq.URL ∧
    (baseEnv.dialErr = none →
      Event.wrote (writeFormOf ctxWitC8) baseReq.URL
        ∈ (attempt ctxWitC8 baseReq baseEnv).traceOf) :=
  C8_forward_writer ctxWitC8 baseReq baseEnv [] (by decide) (by decide) (by decide)

/-- Claim C9 witness: the per-operation contract at a concrete
connection with timeouts 4s/3s, `now = 100`, `n = 7`. -/
theorem C9_witness :
    (connWitC9.armWrite 100).writeDeadline = 100 + connWitC9.WriteTimeout ∧
    (connWitC9.armRead 100).readDeadline = 100 + connWitC9.ReadTimeout ∧
    ((connWitC9.Write 100 7 none).1).writeDeadline = 0 ∧
    ((connWitC9.Write 100 7 none).1).BytesWrote = connWitC9.BytesWrote + 7 ∧
    ((connWitC9.Write 100 7 (some "x")).1).BytesWrote = connWitC9.BytesWrote ∧
    ((connWitC9.Read 100 7 none).1).readDeadline = 0 ∧
    ((connWitC9.Read 100 7 none).1).BytesRead = connWitC9.BytesRead + 7 ∧
    ((connWitC9.Read 100 7 (some "x")).1).BytesRead = connWitC9.BytesRead ∧
    connWitC9.BytesWrote ≤ (applyOps connWitC9 opsWitC9).BytesWrote ∧
    connWitC9.BytesRead ≤ (applyOps connWitC9 opsWitC9).BytesRead :=
  C9_instrumented_conn connWitC9 100 7 "x" opsWitC9 (by decide) (by decide)

/-- Claim C10: at a forward-mode dial failure (`"connection refused"`)
whose fallback callback yields an empty replacement address, the
callback is consumed and no retry occurs and the forward-proxy address
is unchanged — but the exchange does not fail with the original dial
error: because of the shadowing slip of src/unnamed/part_000 line 267
it returns the resolver chain's error, which is `nil` here, so the
caller receives a `nil` response with a `nil` error. -/
theorem C10_empty_fallback_eval :
    ctxCexC10.ForwardProxyErrorFallback = some ("", "acct2") ∧
    envCexC10.dialErr = some "connection refused" ∧
    (attempt ctxCexC10 baseReq envCexC10).isRetry = false ∧
    (attempt ctxCexC10 baseReq envCexC10).ctxOf.ForwardProxyErrorFallback = none ∧
    (attempt ctxCexC10 baseReq envCexC10).ctxOf.ForwardProxy = "10.0.0.9:3128" ∧
    (attempt ctxCexC10 baseReq envCexC10).respOf = none ∧
    (attempt ctxCexC10 baseReq envCexC10).errOf = none := by decide
